import Mathlib

/-!
Shallow embedding of the plugin lifecycle and registry subsystem of the
plugins-service repository: the lifecycle manager and registry
(src/core/lifecycle-manager.ts), the plugin loader (src/core/plugin-loader.ts),
the metadata validator, and the typed event emitter (src/shared/events/index.ts).
Asynchronous hooks are modelled by their settled outcome; the registry map and
the event bus trace are threaded explicitly as state.
-/

namespace PluginsService

/-- Decidable equality of settled outcomes. -/
instance {ε α : Type} [DecidableEq ε] [DecidableEq α] : DecidableEq (Except ε α) := fun x y =>
  match x, y with
  | Except.ok a, Except.ok b =>
      if h : a = b then isTrue (by rw [h])
      else isFalse (fun hc => by cases hc; exact h rfl)
  | Except.error a, Except.error b =>
      if h : a = b then isTrue (by rw [h])
      else isFalse (fun hc => by cases hc; exact h rfl)
  | Except.ok _, Except.error _ => isFalse (fun hc => by cases hc)
  | Except.error _, Except.ok _ => isFalse (fun hc => by cases hc)

/-- Enum PluginState from src/core/types.ts. -/
inductive PluginState
  | unloaded
  | loaded
  | enabled
  | disabled
  | error
deriving DecidableEq, Repr

/-- PluginMetadata from src/core/types.ts, as produced by validateMetadata. -/
structure PluginMetadata where
  name : String
  version : String
  description : Option String := none
  enabled : Bool := true
  author : Option String := none
deriving DecidableEq, Repr

/-- A lifecycle hook: absent (the plugin does not define it), or present with
the outcome its promise settles to when invoked (resolution, or rejection with
the message of the thrown Error). -/
abbrev Hook := Option (Except String Unit)

/-- What happens when the source runs a hook guarded by a truthiness check:
an absent hook is skipped, which behaves like success. -/
def hookOutcome (h : Hook) : Except String Unit :=
  h.getD (Except.ok ())

/-- Plugin interface from src/core/types.ts (the routes callback is omitted:
it is not touched by the lifecycle operations modelled here). -/
structure Plugin where
  name : String
  version : String
  onLoad : Hook := none
  onEnable : Hook := none
  onDisable : Hook := none
  onUnload : Hook := none
deriving DecidableEq, Repr

/-- PluginInstance from src/core/types.ts. The context field is omitted: it is
an opaque bundle of collaborator handles never inspected by the core. -/
structure PluginInstance where
  plugin : Plugin
  metadata : PluginMetadata
  state : PluginState
  path : String
deriving DecidableEq, Repr

/-- PluginRegistryImpl from src/core/lifecycle-manager.ts: a JS Map from plugin
name to instance, modelled as its entry list in insertion order. -/
structure Registry where
  plugins : List PluginInstance
deriving DecidableEq, Repr

/-- Map.get by plugin name. -/
def Registry.get (r : Registry) (name : String) : Option PluginInstance :=
  r.plugins.find? (fun i => i.metadata.name == name)

/-- getAll: Array.from of the Map values, in insertion order. -/
def Registry.getAll (r : Registry) : List PluginInstance :=
  r.plugins

/-- getEnabled: getAll filtered to state === ENABLED. -/
def Registry.getEnabled (r : Registry) : List PluginInstance :=
  r.plugins.filter (fun i => i.state == PluginState.enabled)

/-- has by plugin name. -/
def Registry.has (r : Registry) (name : String) : Bool :=
  (r.get name).isSome

/-- register: Map.set keyed by instance.metadata.name. On an existing key the
entry keeps its insertion position; a new key is appended. -/
def Registry.register (r : Registry) (inst : PluginInstance) : Registry :=
  if r.plugins.any (fun i => i.metadata.name == inst.metadata.name) then
    ⟨r.plugins.map (fun i => if i.metadata.name == inst.metadata.name then inst else i)⟩
  else
    ⟨r.plugins ++ [inst]⟩

/-- unregister: Map.delete by name. -/
def Registry.unregister (r : Registry) (name : String) : Registry :=
  ⟨r.plugins.filter (fun i => i.metadata.name != name)⟩

/-- The TS statement instance.state = st, where instance is the aliased entry object the registry holds for that name. -/
def Registry.setState (r : Registry) (name : String) (st : PluginState) : Registry :=
  ⟨r.plugins.map (fun i => if i.metadata.name == name then { i with state := st } else i)⟩

/-- Lifecycle events emitted on the shared bus by the lifecycle manager. -/
inductive BusEvent
  | loaded (name : String) (version : String)
  | enabled (name : String)
  | disabled (name : String)
  | unloaded (name : String)
deriving DecidableEq, Repr

/-- Typed errors thrown by the core (src/common/errors/index.ts): PluginLoadError,
PluginLifecycleError, and a generic JS error (for example a JSON.parse
SyntaxError escaping the loader). -/
inductive PluginError
  | load (pluginName : String) (msg : String)
  | lifecycle (pluginName : String) (hook : String) (msg : String)
  | js (msg : String)
deriving DecidableEq, Repr

/-- The Error.message of each error, as built by the AppError constructors. -/
def PluginError.message : PluginError → String
  | .load n m => m ++ ": " ++ n
  | .lifecycle n h m => m ++ " (" ++ h ++ "): " ++ n
  | .js m => m

/-- The mutable state the lifecycle manager operates on: the singleton registry,
the sequence of lifecycle events emitted on the bus so far, and a log of the
hook invocations performed, as (plugin name, hook name) pairs. -/
structure MState where
  registry : Registry
  events : List BusEvent := []
  calls : List (String × String) := []
deriving DecidableEq, Repr

/-- Run one optional hook the way the source does (if (plugin.onX) await
plugin.onX(ctx)): a present hook is invoked and logged and yields its outcome;
an absent hook is skipped. -/
def invokeHook (s : MState) (pname : String) (hname : String) (h : Hook) :
    MState × Except String Unit :=
  match h with
  | none => (s, Except.ok ())
  | some r => ({ s with calls := s.calls ++ [(pname, hname)] }, r)

/-- The instance record built by LifecycleManager.loadPlugin, with the state its
single mutation in each branch leaves it in: LOADED when onLoad resolved (or was
absent), ERROR when onLoad rejected. -/
def loadPluginInstance (p : Plugin) (m : PluginMetadata) (pluginPath : String) :
    PluginInstance :=
  { plugin := p
    metadata := m
    state := match hookOutcome p.onLoad with
      | Except.ok _ => PluginState.loaded
      | Except.error _ => PluginState.error
    path := pluginPath }

/-- LifecycleManager.loadPlugin: build the instance in state UNLOADED, run
onLoad; on success set state LOADED, register, emit plugin:loaded and return
the instance; on failure set the state of the (unregistered) instance to ERROR and
throw PluginLoadError(metadata.name, cause message). -/
def loadPlugin (s : MState) (p : Plugin) (m : PluginMetadata) (pluginPath : String) :
    MState × Except PluginError PluginInstance :=
  let inst := loadPluginInstance p m pluginPath
  let c := invokeHook s m.name "onLoad" p.onLoad
  match c.2 with
  | Except.ok _ =>
      ({ c.1 with
          registry := c.1.registry.register inst
          events := c.1.events ++ [BusEvent.loaded m.name m.version] },
       Except.ok inst)
  | Except.error msg => (c.1, Except.error (PluginError.load m.name msg))

/-- LifecycleManager.enablePlugin: not found throws PluginLoadError(name,
"Plugin not found"); already ENABLED returns; otherwise run onEnable, on
success set ENABLED and emit plugin:enabled, on failure set ERROR and throw
PluginLifecycleError(name, "onEnable", cause message). -/
def enablePlugin (s : MState) (name : String) : MState × Except PluginError Unit :=
  match s.registry.get name with
  | none => (s, Except.error (PluginError.load name "Plugin not found"))
  | some inst =>
      if inst.state = PluginState.enabled then
        (s, Except.ok ())
      else
        let c := invokeHook s name "onEnable" inst.plugin.onEnable
        match c.2 with
        | Except.ok _ =>
            ({ c.1 with
                registry := c.1.registry.setState name PluginState.enabled
                events := c.1.events ++ [BusEvent.enabled name] },
             Except.ok ())
        | Except.error msg =>
            ({ c.1 with registry := c.1.registry.setState name PluginState.error },
             Except.error (PluginError.lifecycle name "onEnable" msg))

/-- LifecycleManager.disablePlugin: not found throws; state DISABLED or LOADED
returns; otherwise run onDisable, on success set DISABLED and emit
plugin:disabled, on failure set ERROR and throw
PluginLifecycleError(name, "onDisable", cause message). -/
def disablePlugin (s : MState) (name : String) : MState × Except PluginError Unit :=
  match s.registry.get name with
  | none => (s, Except.error (PluginError.load name "Plugin not found"))
  | some inst =>
      if inst.state = PluginState.disabled ∨ inst.state = PluginState.loaded then
        (s, Except.ok ())
      else
        let c := invokeHook s name "onDisable" inst.plugin.onDisable
        match c.2 with
        | Except.ok _ =>
            ({ c.1 with
                registry := c.1.registry.setState name PluginState.disabled
                events := c.1.events ++ [BusEvent.disabled name] },
             Except.ok ())
        | Except.error msg =>
            ({ c.1 with registry := c.1.registry.setState name PluginState.error },
             Except.error (PluginError.lifecycle name "onDisable" msg))

/-- LifecycleManager.unloadPlugin: absent from the registry returns. A single
try block covers the whole body: disable first when ENABLED, then run onUnload,
set UNLOADED, unregister and emit plugin:unloaded; any error caught (a
disablePlugin throw included) sets state ERROR and throws
PluginLifecycleError(name, "onUnload", caught error message). -/
def unloadPlugin (s : MState) (name : String) : MState × Except PluginError Unit :=
  match s.registry.get name with
  | none => (s, Except.ok ())
  | some inst =>
      let d :=
        if inst.state = PluginState.enabled then disablePlugin s name
        else (s, Except.ok ())
      match d.2 with
      | Except.error e =>
          ({ d.1 with registry := d.1.registry.setState name PluginState.error },
           Except.error (PluginError.lifecycle name "onUnload" e.message))
      | Except.ok _ =>
          let c := invokeHook d.1 name "onUnload" inst.plugin.onUnload
          match c.2 with
          | Except.ok _ =>
              ({ c.1 with
                  registry := (c.1.registry.setState name PluginState.unloaded).unregister name
                  events := c.1.events ++ [BusEvent.unloaded name] },
               Except.ok ())
          | Except.error msg =>
              ({ c.1 with registry := c.1.registry.setState name PluginState.error },
               Except.error (PluginError.lifecycle name "onUnload" msg))

/-- LifecycleManager.unloadAllPlugins: iterate a snapshot of the registry in
reverse insertion order, calling unloadPlugin on each name with every per-plugin
failure caught and logged. Besides the final state, the list of names the loop
called unloadPlugin on is returned, in call order. -/
def unloadAllPlugins (s : MState) : MState × List String :=
  s.registry.getAll.reverse.foldl
    (fun acc inst =>
      ((unloadPlugin acc.1 inst.metadata.name).1, acc.2 ++ [inst.metadata.name]))
    (s, [])

/-! ### Plugin loader / discovery (src/core/plugin-loader.ts) -/

/-- A JSON value, as produced by JSON.parse for a descriptor file. -/
inductive JVal
  | jnull
  | jbool (b : Bool)
  | jstr (s : String)
  | jnum (n : Int)
  | jobj (fields : List (String × JVal))
  | jarr (elems : List JVal)

/-- Property access meta.key on a parsed JSON value (undefined is none). -/
def JVal.lookupField : JVal → String → Option JVal
  | JVal.jobj fs, k => (fs.find? (fun p => p.1 == k)).map (fun p => p.2)
  | _, _ => none

/-- The JS guard (falsy metadata, or typeof other than object): passed exactly by
objects and arrays (null is falsy and fails the first disjunct). -/
def jsIsObject : JVal → Bool
  | JVal.jobj _ => true
  | JVal.jarr _ => true
  | _ => false

/-- validateMetadata from src/core/plugin-loader.ts: require an object, a
non-empty string name and a non-empty string version; description and author
kept when strings; enabled is meta.enabled !== false, so it defaults to true
when the field is absent. -/
def validateMetadata (metadata : JVal) (pluginDir : String) :
    Except PluginError PluginMetadata :=
  if ¬ jsIsObject metadata then
    Except.error (PluginError.load pluginDir "Invalid plugin.json: not an object")
  else
    match metadata.lookupField "name" with
    | some (JVal.jstr n) =>
        if n = "" then
          Except.error (PluginError.load pluginDir "Invalid plugin.json: missing or invalid name")
        else
          match metadata.lookupField "version" with
          | some (JVal.jstr v) =>
              if v = "" then
                Except.error
                  (PluginError.load pluginDir "Invalid plugin.json: missing or invalid version")
              else
                Except.ok
                  { name := n
                    version := v
                    description :=
                      match metadata.lookupField "description" with
                      | some (JVal.jstr d) => some d
                      | _ => none
                    enabled :=
                      match metadata.lookupField "enabled" with
                      | some (JVal.jbool false) => false
                      | _ => true
                    author :=
                      match metadata.lookupField "author" with
                      | some (JVal.jstr a) => some a
                      | _ => none }
          | _ =>
              Except.error
                (PluginError.load pluginDir "Invalid plugin.json: missing or invalid version")
    | _ =>
        Except.error (PluginError.load pluginDir "Invalid plugin.json: missing or invalid name")

/-- The filesystem contents of one subdirectory of the plugins root, as the
loader observes them: the entry name (basename), whether plugin.json exists,
the JSON.parse outcome of its content, which entry modules exist, and the
default export of the module when it is an object (none models a missing or
non-object default export). -/
structure PluginDirFS where
  dirName : String
  hasConfig : Bool
  configJson : Except String JVal
  hasIndexTs : Bool
  hasIndexJs : Bool
  defaultExport : Option Plugin

/-- loadPluginFromDirectory from src/core/plugin-loader.ts: skip (none) when
plugin.json is absent or the descriptor is disabled; throw on a JSON.parse
failure, an invalid descriptor, a missing entry module, a missing default
export object, or a name mismatch between module and descriptor. The version
field of the module is never compared. -/
def loadPluginFromDirectory (d : PluginDirFS) (pluginDir : String) :
    Except PluginError (Option (Plugin × PluginMetadata)) :=
  if ¬ d.hasConfig then
    Except.ok none
  else
    match d.configJson with
    | Except.error msg => Except.error (PluginError.js msg)
    | Except.ok raw =>
        match validateMetadata raw pluginDir with
        | Except.error e => Except.error e
        | Except.ok metadata =>
            if ¬ metadata.enabled then
              Except.ok none
            else if ¬ d.hasIndexTs ∧ ¬ d.hasIndexJs then
              Except.error (PluginError.load metadata.name "No index.ts or index.js found")
            else
              match d.defaultExport with
              | none =>
                  Except.error
                    (PluginError.load metadata.name "Plugin does not export a default object")
              | some plugin =>
                  if plugin.name ≠ metadata.name then
                    Except.error
                      (PluginError.load metadata.name
                        ("Plugin name mismatch: " ++ plugin.name ++ " vs " ++ metadata.name))
                  else
                    Except.ok (some (plugin, metadata))

/-- Result entries returned by PluginLoader.loadAllPlugins. -/
structure PluginLoadResult where
  success : Bool
  pluginName : String
  error : Option PluginError := none
deriving DecidableEq, Repr

/-- The body of the per-directory try block in PluginLoader.loadAllPlugins:
discover the directory; on a skip do nothing; otherwise loadPlugin and, when
autoEnable is set, enablePlugin; yields the name of the loaded plugin on success. -/
def tryLoadOneDir (auto : Bool) (pdir : String) (s : MState) (d : PluginDirFS) :
    MState × Except PluginError (Option String) :=
  match loadPluginFromDirectory d (pdir ++ "/" ++ d.dirName) with
  | Except.error e => (s, Except.error e)
  | Except.ok none => (s, Except.ok none)
  | Except.ok (some (plugin, metadata)) =>
      let l := loadPlugin s plugin metadata (pdir ++ "/" ++ d.dirName)
      match l.2 with
      | Except.error e => (l.1, Except.error e)
      | Except.ok _ =>
          if auto then
            let e := enablePlugin l.1 metadata.name
            match e.2 with
            | Except.error err => (e.1, Except.error err)
            | Except.ok _ => (e.1, Except.ok (some metadata.name))
          else
            (l.1, Except.ok (some metadata.name))

/-- One iteration of the loadAllPlugins loop: the try block above with its
catch, which records a failure entry named by the basename of the directory and lets
the loop continue. A skipped directory produces no result entry. -/
def processOneDir (auto : Bool) (pdir : String) (s : MState) (d : PluginDirFS) :
    MState × Option PluginLoadResult :=
  let t := tryLoadOneDir auto pdir s d
  match t.2 with
  | Except.ok none => (t.1, none)
  | Except.ok (some pname) => (t.1, some { success := true, pluginName := pname })
  | Except.error e =>
      (t.1, some { success := false, pluginName := d.dirName, error := some e })

/-- The loadAllPlugins loop over the discovered subdirectories, in enumeration
order, collecting the per-directory result entries. -/
def processDirs (auto : Bool) (pdir : String) :
    MState → List PluginDirFS → MState × List PluginLoadResult
  | s, [] => (s, [])
  | s, d :: ds =>
      let p1 := processOneDir auto pdir s d
      let rest := processDirs auto pdir p1.1 ds
      match p1.2 with
      | none => rest
      | some r => (rest.1, r :: rest.2)

/-- The plugins root as the loader observes it: whether the configured
directory exists, and its subdirectory entries in enumeration order. -/
structure PluginsRoot where
  rootExists : Bool
  dirs : List PluginDirFS

/-- PluginLoader.loadAllPlugins: a missing plugins root yields the empty result
list; otherwise every subdirectory is processed in order. -/
def loadAllPlugins (root : PluginsRoot) (auto : Bool) (pdir : String) (s : MState) :
    MState × List PluginLoadResult :=
  if root.rootExists then processDirs auto pdir s root.dirs
  else (s, [])

/-- PluginLoader.reloadPlugin: not found throws; otherwise unload (propagating
its failure), re-discover from the original path of the instance (a skip becomes
PluginLoadError(name, "Failed to reload plugin"), other discovery failures
propagate), then loadPlugin and enablePlugin again. The filesystem is passed as
a map from a directory path to its current contents. -/
def reloadPlugin (fs : String → PluginDirFS) (s : MState) (name : String) :
    MState × Except PluginError Unit :=
  match s.registry.get name with
  | none => (s, Except.error (PluginError.load name "Plugin not found"))
  | some inst =>
      let u := unloadPlugin s name
      match u.2 with
      | Except.error e => (u.1, Except.error e)
      | Except.ok _ =>
          match loadPluginFromDirectory (fs inst.path) inst.path with
          | Except.error e => (u.1, Except.error e)
          | Except.ok none => (u.1, Except.error (PluginError.load name "Failed to reload plugin"))
          | Except.ok (some (plugin, metadata)) =>
              let l := loadPlugin u.1 plugin metadata inst.path
              match l.2 with
              | Except.error e => (l.1, Except.error e)
              | Except.ok _ => enablePlugin l.1 name

/-! ### Typed event emitter (src/shared/events/index.ts)

TypedEventEmitter.emitEvent delegates directly to the Node
EventEmitter.prototype.emit method with no per-listener try/catch. The dispatch
semantics modelled here are those of the events module: the listeners
registered for the event are invoked synchronously in registration order; an
exception thrown by a listener propagates out of emit and the remaining
listeners are not invoked; emit returns false when no listener existed and
true otherwise. -/

/-- A registered listener, modelled by the outcome of invoking it on the
emitted payload: normal return, or a thrown error with its message. -/
abbrev Listener := Except String Unit

/-- Invoke listeners in order until one throws; returns how many were invoked
and either the first thrown error or normal completion. -/
def emitRun : List Listener → Nat × Except String Unit
  | [] => (0, Except.ok ())
  | l :: ls =>
      match l with
      | Except.error msg => (1, Except.error msg)
      | Except.ok _ =>
          let r := emitRun ls
          (r.1 + 1, r.2)

/-- emitEvent for one event name: dispatch to the currently-registered listener
list; yields how many listeners were invoked and the emit result (false for no
listeners, true after all ran, or the first listener exception). -/
def emitEvent (listeners : List Listener) : Nat × Except String Bool :=
  match listeners with
  | [] => (0, Except.ok false)
  | l :: ls =>
      ((emitRun (l :: ls)).1, (emitRun (l :: ls)).2.map (fun _ => true))

/-! ### Concrete sample data used by witnesses and counterexamples -/

/-- Sample metadata for a plugin named alpha. -/
def egMeta : PluginMetadata := { name := "alpha", version := "1.0.0" }

/-- A plugin whose onEnable hook resolves. -/
def egPluginEnableOk : Plugin :=
  { name := "alpha", version := "1.0.0", onEnable := some (Except.ok ()) }

/-- A plugin whose onLoad hook rejects. -/
def egPluginLoadFail : Plugin :=
  { name := "alpha", version := "1.0.0", onLoad := some (Except.error "boom") }

/-- A plugin with no hooks at all. -/
def egPluginBare : Plugin := { name := "alpha", version := "1.0.0" }

/-- A plugin whose onDisable hook rejects while onUnload would resolve. -/
def egPluginDisableFail : Plugin :=
  { name := "alpha", version := "1.0.0"
    onDisable := some (Except.error "disable boom")
    onUnload := some (Except.ok ()) }

/-- A registered instance of the bare plugin, currently in state error. -/
def egErrInst : PluginInstance :=
  { plugin := egPluginEnableOk, metadata := egMeta
    state := PluginState.error, path := "/plugins/alpha" }

/-- A manager state whose registry holds exactly the error-state instance. -/
def egErrState : MState := { registry := ⟨[egErrInst]⟩ }

/-- A registered instance of the disable-failing plugin, currently enabled. -/
def egEnabledFailInst : PluginInstance :=
  { plugin := egPluginDisableFail, metadata := egMeta
    state := PluginState.enabled, path := "/plugins/alpha" }

/-- A manager state whose registry holds exactly the enabled instance. -/
def egEnabledFailState : MState := { registry := ⟨[egEnabledFailInst]⟩ }

/-- A registered instance of the bare plugin in state loaded. -/
def egLoadedInst : PluginInstance :=
  { plugin := egPluginEnableOk, metadata := egMeta
    state := PluginState.loaded, path := "/plugins/alpha" }

/-- A manager state whose registry holds exactly the loaded instance. -/
def egLoadedState : MState := { registry := ⟨[egLoadedInst]⟩ }

/-- The empty manager state. -/
def egEmptyState : MState := { registry := ⟨[]⟩ }

/-- A descriptor object for alpha version 1.0.0 with no enabled field. -/
def egRawMeta : JVal :=
  JVal.jobj [("name", JVal.jstr "alpha"), ("version", JVal.jstr "1.0.0")]

/-- A descriptor object for alpha with enabled set to false. -/
def egRawMetaDisabled : JVal :=
  JVal.jobj
    [("name", JVal.jstr "alpha"), ("version", JVal.jstr "1.0.0"),
     ("enabled", JVal.jbool false)]

/-- A module default export whose name matches the descriptor but whose
version differs from the version in the descriptor. -/
def egVerPlugin : Plugin := { name := "alpha", version := "2.0.0" }

/-- A plugin directory whose module version disagrees with its descriptor. -/
def egVerDir : PluginDirFS :=
  { dirName := "alpha", hasConfig := true, configJson := Except.ok egRawMeta
    hasIndexTs := true, hasIndexJs := false, defaultExport := some egVerPlugin }

/-- A plugin directory whose descriptor fails to parse as JSON. -/
def egBadJsonDir : PluginDirFS :=
  { dirName := "broken", hasConfig := true
    configJson := Except.error "Unexpected token"
    hasIndexTs := false, hasIndexJs := false, defaultExport := none }

/-- A healthy plugin directory for the bare alpha plugin. -/
def egGoodDir : PluginDirFS :=
  { dirName := "alpha", hasConfig := true, configJson := Except.ok egRawMeta
    hasIndexTs := true, hasIndexJs := false, defaultExport := some egPluginBare }

/-- A directory with no plugin.json at all. -/
def egNoConfigDir : PluginDirFS :=
  { dirName := "empty", hasConfig := false, configJson := Except.error "unread"
    hasIndexTs := false, hasIndexJs := false, defaultExport := none }

/-- A plugin directory whose descriptor is disabled. -/
def egDisabledDir : PluginDirFS :=
  { dirName := "alpha", hasConfig := true
    configJson := Except.ok egRawMetaDisabled
    hasIndexTs := true, hasIndexJs := false, defaultExport := some egPluginBare }

/-- The metadata the disabled descriptor validates to. -/
def egMetaDisabled : PluginMetadata :=
  { name := "alpha", version := "1.0.0", enabled := false }

/-- A module default export whose name disagrees with the descriptor. -/
def egNameMismatchPlugin : Plugin := { name := "beta", version := "1.0.0" }

/-- A plugin directory whose module name disagrees with its descriptor. -/
def egNameMismatchDir : PluginDirFS :=
  { dirName := "alpha", hasConfig := true, configJson := Except.ok egRawMeta
    hasIndexTs := true, hasIndexJs := false
    defaultExport := some egNameMismatchPlugin }

/-! ### Registry lemmas -/

/-- Setting the state of the registry entry for a name rewrites exactly the
instance that lookup by that name returns. -/
theorem find?_name_map_set (name : String) (st : PluginState) :
    ∀ (l : List PluginInstance) (inst : PluginInstance),
      l.find? (fun i => i.metadata.name == name) = some inst →
      (l.map (fun i => if i.metadata.name == name then { i with state := st } else i)).find?
        (fun i => i.metadata.name == name) = some { inst with state := st } := by
  intro l
  induction l with
  | nil => intro inst h; simp [List.find?] at h
  | cons a l ih =>
      intro inst h
      by_cases hp : a.metadata.name = name
      · have hb : (a.metadata.name == name) = true := by simp [hp]
        rw [@List.find?_cons_of_pos _ (fun i => i.metadata.name == name) a l hb,
          Option.some_inj] at h
        subst h
        rw [List.map_cons, if_pos hb]
        exact @List.find?_cons_of_pos _ (fun i => i.metadata.name == name)
          { a with state := st }
          (List.map (fun i => if i.metadata.name == name then { i with state := st } else i) l)
          hb
      · have hb : ¬ ((a.metadata.name == name) = true) := by simp [hp]
        rw [@List.find?_cons_of_neg _ (fun i => i.metadata.name == name) a l hb] at h
        rw [List.map_cons, if_neg hb]
        rw [@List.find?_cons_of_neg _ (fun i => i.metadata.name == name) a
          (List.map (fun i => if i.metadata.name == name then { i with state := st } else i) l)
          hb]
        exact ih inst h

/-- Registry form of the previous lemma. -/
theorem Registry.get_setState (r : Registry) (name : String) (st : PluginState)
    (inst : PluginInstance) (h : r.get name = some inst) :
    (r.setState name st).get name = some { inst with state := st } :=
  find?_name_map_set name st r.plugins inst h

/-- After unregistering a name, lookup by that name finds nothing. -/
theorem find?_filter_ne (name : String) (l : List PluginInstance) :
    (l.filter (fun i => i.metadata.name != name)).find?
      (fun i => i.metadata.name == name) = none := by
  induction l with
  | nil => simp [List.find?]
  | cons a l ih =>
      rw [List.filter_cons]
      cases hb : (a.metadata.name == name) with
      | true =>
          rw [if_neg (by simp [bne, hb])]
          exact ih
      | false =>
          rw [if_pos (by simp [bne, hb]), List.find?_cons_of_neg _ (by simp [hb])]
          exact ih

/-- Registry form of the previous lemma. -/
theorem Registry.get_unregister (r : Registry) (name : String) :
    (r.unregister name).get name = none :=
  find?_filter_ne name r.plugins

/-! ### Claims -/

/-- Claim C1, counterexample. The claim says a registered instance in state
error never transitions to enabled through a single enablePlugin call, yet on
this concrete error-state instance one enablePlugin call whose onEnable hook
resolves succeeds and puts the instance into state enabled. -/
theorem C1_counterexample :
    egErrState.registry.get "alpha" = some egErrInst ∧
    egErrInst.state = PluginState.error ∧
    (enablePlugin egErrState "alpha").2 = Except.ok () ∧
    (enablePlugin egErrState "alpha").1.registry.get "alpha" =
      some { egErrInst with state := PluginState.enabled } :=
  ⟨rfl, rfl, rfl, rfl⟩

/-- Claim C1, amended: the error state is not absorbing under enablePlugin or
disablePlugin. On a registered error-state instance, enablePlugin re-invokes
onEnable and on a resolving (or absent) hook transitions the instance to
enabled; the instance stays in error exactly when the re-invoked hook rejects
again; disablePlugin likewise transitions it to disabled on success. -/
theorem C1_error_not_absorbing (s : MState) (name : String) (inst : PluginInstance)
    (hget : s.registry.get name = some inst) (herr : inst.state = PluginState.error) :
    (hookOutcome inst.plugin.onEnable = Except.ok () →
        (enablePlugin s name).2 = Except.ok () ∧
        (enablePlugin s name).1.registry.get name =
          some { inst with state := PluginState.enabled }) ∧
    (∀ msg, inst.plugin.onEnable = some (Except.error msg) →
        (enablePlugin s name).2 = Except.error (PluginError.lifecycle name "onEnable" msg) ∧
        (enablePlugin s name).1.registry.get name = some inst) ∧
    (hookOutcome inst.plugin.onDisable = Except.ok () →
        (disablePlugin s name).2 = Except.ok () ∧
        (disablePlugin s name).1.registry.get name =
          some { inst with state := PluginState.disabled }) := by
  have hne : ¬ inst.state = PluginState.enabled := by rw [herr]; intro hc; cases hc
  have hnd : ¬ (inst.state = PluginState.disabled ∨ inst.state = PluginState.loaded) := by
    rw [herr]; intro hc; cases hc with
    | inl hc => cases hc
    | inr hc => cases hc
  refine ⟨?_, ?_, ?_⟩
  · intro hok
    cases he : inst.plugin.onEnable with
    | none =>
        refine ⟨?_, ?_⟩
        · simp [enablePlugin, hget, hne, invokeHook, he]
        · simp [enablePlugin, hget, hne, invokeHook, he]
          exact Registry.get_setState s.registry name PluginState.enabled inst hget
    | some r =>
        have hr : r = Except.ok () := by
          rw [hookOutcome, he] at hok; exact hok
        subst hr
        refine ⟨?_, ?_⟩
        · simp [enablePlugin, hget, hne, invokeHook, he]
        · simp [enablePlugin, hget, hne, invokeHook, he]
          exact Registry.get_setState s.registry name PluginState.enabled inst hget
  · intro msg he
    have hinst : ({ inst with state := PluginState.error } : PluginInstance) = inst := by
      rw [← herr]
    have hreg : (s.registry.setState name PluginState.error).get name = some inst := by
      have h2 := Registry.get_setState s.registry name PluginState.error inst hget
      rw [hinst] at h2
      exact h2
    refine ⟨?_, ?_⟩
    · simp [enablePlugin, hget, hne, invokeHook, he]
    · simp [enablePlugin, hget, hne, invokeHook, he]
      exact hreg
  · intro hok
    cases he : inst.plugin.onDisable with
    | none =>
        refine ⟨?_, ?_⟩
        · simp [disablePlugin, hget, hnd, invokeHook, he]
        · simp [disablePlugin, hget, hnd, invokeHook, he]
          exact Registry.get_setState s.registry name PluginState.disabled inst hget
    | some r =>
        have hr : r = Except.ok () := by
          rw [hookOutcome, he] at hok; exact hok
        subst hr
        refine ⟨?_, ?_⟩
        · simp [disablePlugin, hget, hnd, invokeHook, he]
        · simp [disablePlugin, hget, hnd, invokeHook, he]
          exact Registry.get_setState s.registry name PluginState.disabled inst hget

/-- Claim C1, witness for the amended theorem at the concrete error-state
instance: enablePlugin succeeds and moves it to enabled. -/
theorem C1_error_not_absorbing_witness :
    (enablePlugin egErrState "alpha").2 = Except.ok () ∧
    (enablePlugin egErrState "alpha").1.registry.get "alpha" =
      some { egErrInst with state := PluginState.enabled } :=
  (C1_error_not_absorbing egErrState "alpha" egErrInst rfl rfl).1 rfl

/-- Claim C2: when onLoad rejects, loadPlugin leaves the registry and the
emitted events untouched (the instance is neither registered nor announced),
the instance record ends in state error, and the call fails with
PluginLoadError naming the plugin; when onLoad resolves or is absent, the
instance ends in state loaded, is registered, and exactly one plugin:loaded
event is emitted. -/
theorem C2_loadPlugin (s : MState) (p : Plugin) (m : PluginMetadata) (pluginPath : String) :
    (∀ msg, p.onLoad = some (Except.error msg) →
        loadPlugin s p m pluginPath =
          ({ s with calls := s.calls ++ [(m.name, "onLoad")] },
           Except.error (PluginError.load m.name msg)) ∧
        (loadPluginInstance p m pluginPath).state = PluginState.error) ∧
    (hookOutcome p.onLoad = Except.ok () →
        (loadPlugin s p m pluginPath).2 = Except.ok (loadPluginInstance p m pluginPath) ∧
        (loadPluginInstance p m pluginPath).state = PluginState.loaded ∧
        (loadPlugin s p m pluginPath).1.registry =
          s.registry.register (loadPluginInstance p m pluginPath) ∧
        (loadPlugin s p m pluginPath).1.events =
          s.events ++ [BusEvent.loaded m.name m.version]) := by
  constructor
  · intro msg hl
    constructor
    · simp [loadPlugin, invokeHook, hl]
    · simp [loadPluginInstance, hookOutcome, hl]
  · intro hok
    cases hl : p.onLoad with
    | none =>
        refine ⟨?_, ?_, ?_, ?_⟩ <;>
          simp [loadPlugin, loadPluginInstance, invokeHook, hookOutcome, hl]
    | some r =>
        have hr : r = Except.ok () := by
          rw [hookOutcome, hl] at hok; exact hok
        subst hr
        refine ⟨?_, ?_, ?_, ?_⟩ <;>
          simp [loadPlugin, loadPluginInstance, invokeHook, hookOutcome, hl]

/-- Claim C2, witness: a rejecting onLoad yields the PluginLoadError and an
untouched registry, and a hook-free plugin loads successfully. -/
theorem C2_loadPlugin_witness :
    (loadPlugin egEmptyState egPluginLoadFail egMeta "/plugins/alpha" =
      ({ egEmptyState with calls := egEmptyState.calls ++ [(egMeta.name, "onLoad")] },
       Except.error (PluginError.load egMeta.name "boom"))) ∧
    ((loadPlugin egEmptyState egPluginBare egMeta "/plugins/alpha").2 =
      Except.ok (loadPluginInstance egPluginBare egMeta "/plugins/alpha")) := by
  refine ⟨((C2_loadPlugin egEmptyState egPluginLoadFail egMeta "/plugins/alpha").1 "boom" rfl).1, ?_⟩
  exact ((C2_loadPlugin egEmptyState egPluginBare egMeta "/plugins/alpha").2 rfl).1

/-- Claim C3: on a registered plugin in state enabled whose onDisable hook
rejects, unloadPlugin throws (the caught disable failure rewrapped as an
onUnload lifecycle error), the state of the instance is forced to error, the
onUnload hook is never invoked (the call log gains only the onDisable
invocation), the instance stays registered, and no event is emitted. -/
theorem C3_unload_aborts_on_disable_failure (s : MState) (name : String)
    (inst : PluginInstance) (msg : String)
    (hget : s.registry.get name = some inst)
    (hen : inst.state = PluginState.enabled)
    (hdis : inst.plugin.onDisable = some (Except.error msg)) :
    (unloadPlugin s name).2 =
      Except.error (PluginError.lifecycle name "onUnload"
        (PluginError.message (PluginError.lifecycle name "onDisable" msg))) ∧
    (unloadPlugin s name).1.registry.get name =
      some { inst with state := PluginState.error } ∧
    (unloadPlugin s name).1.calls = s.calls ++ [(name, "onDisable")] ∧
    (unloadPlugin s name).1.events = s.events := by
  have h1 := Registry.get_setState s.registry name PluginState.error inst hget
  have h2 := Registry.get_setState (s.registry.setState name PluginState.error) name
    PluginState.error _ h1
  refine ⟨?_, ?_, ?_, ?_⟩
  · simp [unloadPlugin, disablePlugin, hget, hen, invokeHook, hdis, PluginError.message]
  · simp [unloadPlugin, disablePlugin, hget, hen, invokeHook, hdis]
    exact h2
  · simp [unloadPlugin, disablePlugin, hget, hen, invokeHook, hdis]
  · simp [unloadPlugin, disablePlugin, hget, hen, invokeHook, hdis]

/-- Claim C3, witness at the concrete enabled instance whose onDisable hook
rejects while its onUnload hook would resolve. -/
theorem C3_unload_aborts_on_disable_failure_witness :
    (unloadPlugin egEnabledFailState "alpha").2 =
      Except.error (PluginError.lifecycle "alpha" "onUnload"
        (PluginError.message (PluginError.lifecycle "alpha" "onDisable" "disable boom"))) ∧
    (unloadPlugin egEnabledFailState "alpha").1.registry.get "alpha" =
      some { egEnabledFailInst with state := PluginState.error } ∧
    (unloadPlugin egEnabledFailState "alpha").1.calls = [("alpha", "onDisable")] ∧
    (unloadPlugin egEnabledFailState "alpha").1.events = [] := by
  have h := C3_unload_aborts_on_disable_failure egEnabledFailState "alpha"
    egEnabledFailInst "disable boom" rfl rfl rfl
  exact ⟨h.1, h.2.1, h.2.2.1, h.2.2.2⟩

/-- The unloadAllPlugins fold records exactly the names of the visited
instances, in visit order, independently of per-plugin outcomes. -/
theorem unloadAll_foldl_names (l : List PluginInstance) :
    ∀ (s : MState) (acc : List String),
      (l.foldl (fun acc2 inst =>
          ((unloadPlugin acc2.1 inst.metadata.name).1, acc2.2 ++ [inst.metadata.name]))
        (s, acc)).2 = acc ++ l.map (fun i => i.metadata.name) := by
  induction l with
  | nil => intro s acc; simp
  | cons a l ih =>
      intro s acc
      simp only [List.foldl_cons, List.map_cons]
      rw [ih]
      simp

/-- Claim C4: unloadAllPlugins calls unloadPlugin on every registered plugin in
exactly the reverse of current registration order, for every state — including
states whose instances have rejecting onDisable or onUnload hooks, since the
per-plugin result is discarded by the catch in the loop and the sweep never fails. -/
theorem C4_unloadAll_reverse_order (s : MState) :
    (unloadAllPlugins s).2 = (s.registry.getAll.map (fun i => i.metadata.name)).reverse := by
  unfold unloadAllPlugins
  rw [unloadAll_foldl_names]
  simp [Registry.getAll]

/-- Claim C8: on a registered plugin not yet enabled whose onEnable hook
resolves, calling enablePlugin twice in a row invokes onEnable exactly once
and emits exactly one plugin:enabled event; the second call returns the state
unchanged (no hook invocation, no duplicate event). -/
theorem C8_enable_idempotent (s : MState) (name : String) (inst : PluginInstance)
    (hget : s.registry.get name = some inst)
    (hne : inst.state ≠ PluginState.enabled)
    (hok : inst.plugin.onEnable = some (Except.ok ())) :
    enablePlugin (enablePlugin s name).1 name = ((enablePlugin s name).1, Except.ok ()) ∧
    (enablePlugin s name).1.calls = s.calls ++ [(name, "onEnable")] ∧
    (enablePlugin s name).1.events = s.events ++ [BusEvent.enabled name] := by
  have hs1 : (enablePlugin s name).1 =
      { registry := s.registry.setState name PluginState.enabled
        events := s.events ++ [BusEvent.enabled name]
        calls := s.calls ++ [(name, "onEnable")] } := by
    simp [enablePlugin, hget, hne, invokeHook, hok]
  have hget1 : (s.registry.setState name PluginState.enabled).get name =
      some { inst with state := PluginState.enabled } :=
    Registry.get_setState s.registry name PluginState.enabled inst hget
  refine ⟨?_, ?_, ?_⟩
  · rw [hs1]
    simp [enablePlugin, hget1]
  · rw [hs1]
  · rw [hs1]

/-- Claim C8, witness at the concrete loaded instance: the double enable ends
with one logged onEnable invocation and one plugin:enabled event. -/
theorem C8_enable_idempotent_witness :
    enablePlugin (enablePlugin egLoadedState "alpha").1 "alpha" =
      ((enablePlugin egLoadedState "alpha").1, Except.ok ()) ∧
    (enablePlugin egLoadedState "alpha").1.calls = [("alpha", "onEnable")] ∧
    (enablePlugin egLoadedState "alpha").1.events = [BusEvent.enabled "alpha"] := by
  have h := C8_enable_idempotent egLoadedState "alpha" egLoadedInst rfl (by decide) rfl
  exact ⟨h.1, h.2.1, h.2.2⟩

/-- Claim C5: the loader isolates per-plugin failures. A missing plugins root
yields the empty result list; processing a directory list never aborts early
(the results of later directories are appended after those of earlier ones,
whatever happened there); and a directory whose try block fails with any error
becomes a single result entry with success false, the directory basename as
pluginName, and the captured error — it never escapes as a throw. -/
theorem C5_loader_isolation (auto : Bool) (pdir : String) :
    (∀ ds s, loadAllPlugins ⟨false, ds⟩ auto pdir s = (s, [])) ∧
    (∀ s ds1 ds2,
        processDirs auto pdir s (ds1 ++ ds2) =
          ((processDirs auto pdir (processDirs auto pdir s ds1).1 ds2).1,
           (processDirs auto pdir s ds1).2 ++
             (processDirs auto pdir (processDirs auto pdir s ds1).1 ds2).2)) ∧
    (∀ s d e, (tryLoadOneDir auto pdir s d).2 = Except.error e →
        processOneDir auto pdir s d =
          ((tryLoadOneDir auto pdir s d).1,
           some { success := false, pluginName := d.dirName, error := some e })) := by
  refine ⟨?_, ?_, ?_⟩
  · intro ds s
    simp [loadAllPlugins]
  · intro s ds1 ds2
    induction ds1 generalizing s with
    | nil => simp [processDirs]
    | cons d ds1 ih =>
        simp only [List.cons_append, processDirs]
        cases hq : (processOneDir auto pdir s d).2 with
        | none => simp [ih]
        | some r => simp [ih]
  · intro s d e h
    simp [processOneDir, h]

/-- Claim C5, witness: a missing root gives no results; a malformed-descriptor
directory followed by a healthy one yields the appended per-directory results;
and the failure of the malformed directory is captured as a result entry. -/
theorem C5_loader_isolation_witness :
    loadAllPlugins ⟨false, [egBadJsonDir]⟩ true "/plugins" egEmptyState =
      (egEmptyState, []) ∧
    processDirs true "/plugins" egEmptyState ([egBadJsonDir] ++ [egGoodDir]) =
      ((processDirs true "/plugins"
          (processDirs true "/plugins" egEmptyState [egBadJsonDir]).1 [egGoodDir]).1,
       (processDirs true "/plugins" egEmptyState [egBadJsonDir]).2 ++
         (processDirs true "/plugins"
           (processDirs true "/plugins" egEmptyState [egBadJsonDir]).1 [egGoodDir]).2) ∧
    processOneDir true "/plugins" egEmptyState egBadJsonDir =
      ((tryLoadOneDir true "/plugins" egEmptyState egBadJsonDir).1,
       some { success := false, pluginName := egBadJsonDir.dirName,
              error := some (PluginError.js "Unexpected token") }) :=
  ⟨(C5_loader_isolation true "/plugins").1 [egBadJsonDir] egEmptyState,
   (C5_loader_isolation true "/plugins").2.1 egEmptyState [egBadJsonDir] [egGoodDir],
   (C5_loader_isolation true "/plugins").2.2 egEmptyState egBadJsonDir
     (PluginError.js "Unexpected token") rfl⟩

/-- Claim C6, counterexample. The claim says loading fails whenever the
version of the module differs from that of the descriptor, yet this directory,
whose descriptor declares version 1.0.0 while the module exports version
2.0.0, loads successfully. -/
theorem C6_counterexample :
    loadPluginFromDirectory egVerDir "/plugins/alpha" =
      Except.ok (some (egVerPlugin, egMeta)) ∧
    egVerPlugin.version = "2.0.0" ∧
    egMeta.version = "1.0.0" ∧
    egVerPlugin.version ≠ egMeta.version :=
  ⟨rfl, rfl, rfl, by decide⟩

/-- Claim C6, amended: for an imported module and a validated, enabled
descriptor with an entry module present, loading fails exactly when the
name of the module differs from the name in the descriptor; the version field
of the module is never compared, so a version mismatch alone does not fail loading. -/
theorem C6_name_only_checked (d : PluginDirFS) (pluginDir : String) (raw : JVal)
    (m : PluginMetadata) (p : Plugin)
    (hc : d.hasConfig = true) (hj : d.configJson = Except.ok raw)
    (hv : validateMetadata raw pluginDir = Except.ok m) (hen : m.enabled = true)
    (hidx : d.hasIndexTs = true) (hexp : d.defaultExport = some p) :
    (p.name ≠ m.name →
        loadPluginFromDirectory d pluginDir =
          Except.error (PluginError.load m.name
            ("Plugin name mismatch: " ++ p.name ++ " vs " ++ m.name))) ∧
    (p.name = m.name →
        loadPluginFromDirectory d pluginDir = Except.ok (some (p, m))) := by
  constructor
  · intro hne2
    simp [loadPluginFromDirectory, hc, hj, hv, hen, hidx, hexp, hne2]
  · intro he2
    simp [loadPluginFromDirectory, hc, hj, hv, hen, hidx, hexp, he2]

/-- Claim C6, witness for the amended theorem: a name mismatch is a hard
error, while the version-mismatching directory loads. -/
theorem C6_name_only_checked_witness :
    loadPluginFromDirectory egNameMismatchDir "/plugins/alpha" =
      Except.error (PluginError.load "alpha"
        ("Plugin name mismatch: " ++ "beta" ++ " vs " ++ "alpha")) ∧
    loadPluginFromDirectory egVerDir "/plugins/alpha" =
      Except.ok (some (egVerPlugin, egMeta)) := by
  constructor
  · exact (C6_name_only_checked egNameMismatchDir "/plugins/alpha" egRawMeta egMeta
      egNameMismatchPlugin rfl rfl rfl rfl rfl rfl).1 (by decide)
  · exact (C6_name_only_checked egVerDir "/plugins/alpha" egRawMeta egMeta
      egVerPlugin rfl rfl rfl rfl rfl rfl).2 rfl

/-- The enabled flag of a successfully validated descriptor is false exactly when
the raw descriptor carries the literal boolean false in its enabled field. -/
theorem validateMetadata_enabled (raw : JVal) (dir : String) (m : PluginMetadata)
    (h : validateMetadata raw dir = Except.ok m) :
    m.enabled = (match raw.lookupField "enabled" with
                 | some (JVal.jbool false) => false
                 | _ => true) := by
  unfold validateMetadata at h
  repeat' split at h
  all_goals first
    | exact Except.noConfusion h
    | (cases h; rfl)

/-- Claim C9: a valid descriptor without an enabled field validates to
enabled true and (when its entry module and matching default export are in
place) the plugin is loaded; a descriptor with enabled false is skipped by
discovery — no error, no result entry from the loop iteration, and an
untouched state, so the plugin is never registered. -/
theorem C9_descriptor_defaulting (d : PluginDirFS) (pdir : String) (raw : JVal)
    (m : PluginMetadata)
    (hc : d.hasConfig = true) (hj : d.configJson = Except.ok raw)
    (hv : validateMetadata raw (pdir ++ "/" ++ d.dirName) = Except.ok m) :
    (raw.lookupField "enabled" = none →
        m.enabled = true ∧
        (∀ p, d.hasIndexTs = true → d.defaultExport = some p → p.name = m.name →
          loadPluginFromDirectory d (pdir ++ "/" ++ d.dirName) = Except.ok (some (p, m)))) ∧
    (raw.lookupField "enabled" = some (JVal.jbool false) →
        loadPluginFromDirectory d (pdir ++ "/" ++ d.dirName) = Except.ok none ∧
        (∀ s auto, processOneDir auto pdir s d = (s, none))) := by
  have he := validateMetadata_enabled raw (pdir ++ "/" ++ d.dirName) m hv
  constructor
  · intro hlook
    have hen : m.enabled = true := by rw [he, hlook]
    refine ⟨hen, ?_⟩
    intro p hidx hexp hpn
    simp [loadPluginFromDirectory, hc, hj, hv, hen, hidx, hexp, hpn]
  · intro hlook
    have hen : m.enabled = false := by rw [he, hlook]
    have hload : loadPluginFromDirectory d (pdir ++ "/" ++ d.dirName) = Except.ok none := by
      simp [loadPluginFromDirectory, hc, hj, hv, hen]
    refine ⟨hload, ?_⟩
    intro s auto
    simp [processOneDir, tryLoadOneDir, hload]

/-- Claim C9, witness: the descriptor without an enabled field validates to
enabled true and its directory loads; the enabled-false directory is skipped
with no entry and an unchanged state. -/
theorem C9_descriptor_defaulting_witness :
    egMeta.enabled = true ∧
    loadPluginFromDirectory egGoodDir ("/plugins" ++ "/" ++ egGoodDir.dirName) =
      Except.ok (some (egPluginBare, egMeta)) ∧
    loadPluginFromDirectory egDisabledDir ("/plugins" ++ "/" ++ egDisabledDir.dirName) =
      Except.ok none ∧
    processOneDir true "/plugins" egEmptyState egDisabledDir = (egEmptyState, none) := by
  have ha := (C9_descriptor_defaulting egGoodDir "/plugins" egRawMeta egMeta
    rfl rfl rfl).1 rfl
  have hb := (C9_descriptor_defaulting egDisabledDir "/plugins" egRawMetaDisabled
    egMetaDisabled rfl rfl rfl).2 rfl
  exact ⟨ha.1, ha.2 egPluginBare rfl rfl rfl, hb.1, hb.2 egEmptyState true⟩

/-- Claim C7, counterexample. The claim says emitEvent does not throw when a
registered listener throws, yet with a first listener that throws the emission
fails with the error of that listener and the second listener is never invoked. -/
theorem C7_counterexample :
    emitEvent [Except.error "listener boom", Except.ok ()] =
      (1, Except.error "listener boom") := rfl

/-- Claim C7, amended: emitEvent provides no bus-level isolation. When the
listeners before some throwing listener all return normally, emission invokes
exactly those listeners plus the throwing one, the exception escapes emitEvent,
and the listeners after it are never invoked. -/
theorem C7_emit_propagates (pre post : List Listener) (msg : String)
    (hpre : ∀ l ∈ pre, l = Except.ok ()) :
    emitEvent (pre ++ Except.error msg :: post) = (pre.length + 1, Except.error msg) := by
  have hrun : ∀ (pre2 : List Listener), (∀ l ∈ pre2, l = Except.ok ()) →
      emitRun (pre2 ++ Except.error msg :: post) = (pre2.length + 1, Except.error msg) := by
    intro pre2 h2
    induction pre2 with
    | nil => simp [emitRun]
    | cons a t ih =>
        have ha : a = Except.ok () := h2 a (by simp)
        subst ha
        have ht : ∀ l ∈ t, l = Except.ok () := fun l hl => h2 l (by simp [hl])
        simp [emitRun, ih ht]
  have hmain := hrun pre hpre
  cases pre with
  | nil =>
      simp only [List.nil_append] at hmain ⊢
      simp [emitEvent, hmain, Except.map]
  | cons a t =>
      simp only [List.cons_append] at hmain ⊢
      simp [emitEvent, hmain, Except.map]

/-- Claim C7, witness for the amended theorem: one well-behaved listener, then
a throwing one, then one more; two listeners are invoked and the error
escapes. -/
theorem C7_emit_propagates_witness :
    emitEvent [Except.ok (), Except.error "listener boom", Except.ok ()] =
      (2, Except.error "listener boom") := by
  have h := C7_emit_propagates [Except.ok ()] [Except.ok ()] "listener boom"
    (by intro l hl; simp at hl; exact hl)
  simpa using h

/-- After an unloadPlugin call on a registered plugin returns successfully,
that name is gone from the registry. -/
theorem unloadPlugin_ok_unregistered (s : MState) (name : String)
    (inst : PluginInstance) (hget : s.registry.get name = some inst)
    (hok : (unloadPlugin s name).2 = Except.ok ()) :
    (unloadPlugin s name).1.registry.get name = none := by
  by_cases hen : inst.state = PluginState.enabled
  · cases hd : (disablePlugin s name).2 with
    | error e => simp [unloadPlugin, hget, hen, hd] at hok
    | ok u =>
        cases hc : (invokeHook (disablePlugin s name).1 name "onUnload"
            inst.plugin.onUnload).2 with
        | error m2 => simp [unloadPlugin, hget, hen, hd, hc] at hok
        | ok u2 =>
            simp [unloadPlugin, hget, hen, hd, hc]
            exact Registry.get_unregister _ name
  · cases hc : (invokeHook s name "onUnload" inst.plugin.onUnload).2 with
    | error m2 => simp [unloadPlugin, hget, hen, hc] at hok
    | ok u2 =>
        simp [unloadPlugin, hget, hen, hc]
        exact Registry.get_unregister _ name

/-- Claim C10: reloadPlugin is not atomic. On a registered plugin whose unload
step succeeds, if re-discovery from the original path fails — the descriptor
now missing or disabled (a skip), a discovery error, or a rejecting onLoad of
the re-imported module — then reloadPlugin fails and the plugin is absent from
the registry: the previously loaded instance is not restored. -/
theorem C10_reload_not_atomic (fs : String → PluginDirFS) (s : MState) (name : String)
    (inst : PluginInstance)
    (hget : s.registry.get name = some inst)
    (hunok : (unloadPlugin s name).2 = Except.ok ())
    (hfail : loadPluginFromDirectory (fs inst.path) inst.path = Except.ok none ∨
             (∃ e, loadPluginFromDirectory (fs inst.path) inst.path = Except.error e) ∨
             (∃ p m msg, loadPluginFromDirectory (fs inst.path) inst.path =
                Except.ok (some (p, m)) ∧ p.onLoad = some (Except.error msg))) :
    (∃ e2, (reloadPlugin fs s name).2 = Except.error e2) ∧
    (reloadPlugin fs s name).1.registry.get name = none := by
  have hnone := unloadPlugin_ok_unregistered s name inst hget hunok
  rcases hfail with hskip | ⟨e, he⟩ | ⟨p, m, msg, hsome, hload⟩
  · constructor
    · refine ⟨PluginError.load name "Failed to reload plugin", ?_⟩
      simp [reloadPlugin, hget, hunok, hskip]
    · simp [reloadPlugin, hget, hunok, hskip]
      exact hnone
  · constructor
    · refine ⟨e, ?_⟩
      simp [reloadPlugin, hget, hunok, he]
    · simp [reloadPlugin, hget, hunok, he]
      exact hnone
  · constructor
    · refine ⟨PluginError.load m.name msg, ?_⟩
      simp [reloadPlugin, hget, hunok, hsome, loadPlugin, invokeHook, hload]
    · simp [reloadPlugin, hget, hunok, hsome, loadPlugin, invokeHook, hload]
      exact hnone

/-- Claim C10, witness: reloading the loaded alpha instance when its directory
no longer carries a plugin.json fails and leaves alpha unregistered. -/
theorem C10_reload_not_atomic_witness :
    (∃ e2, (reloadPlugin (fun _ => egNoConfigDir) egLoadedState "alpha").2 =
      Except.error e2) ∧
    (reloadPlugin (fun _ => egNoConfigDir) egLoadedState "alpha").1.registry.get "alpha" =
      none :=
  C10_reload_not_atomic (fun _ => egNoConfigDir) egLoadedState "alpha" egLoadedInst
    rfl rfl (Or.inl rfl)

end PluginsService
